import Mathlib

/-!
Shallow embedding of the eq3bt thermostat protocol library
(src/eq3bt/structures.py and src/eq3bt/eq3btsmart.py).

Temperatures and offsets are modelled as exact rationals; Python
machine integers are Nat/Int.  Methods that perform GATT writes are
modelled as functions returning the ordered list of written payloads
together with an optional raised error (a write payload is the byte
list passed to make_request).  struct.pack bounds are noted where the
argument range makes them moot.
-/

/-- Python int() truncation toward zero applied to an exact rational,
as used by the source in expressions such as int(temperature * 2). -/
def pyInt (q : ℚ) : ℤ := Int.tdiv q.num (q.den : ℤ)

/-- Byte-valued variant of pyInt for arguments that are provably
nonnegative at every use site (struct.pack with format B would reject
a negative value, and no reachable call site produces one). -/
def pyNat (q : ℚ) : ℕ := (pyInt q).toNat

theorem pyInt_intCast (k : ℤ) : pyInt (k : ℚ) = k := by
  simp [pyInt, Rat.num_intCast, Rat.den_intCast, Int.tdiv_one]

/-! Constants from src/eq3bt/eq3btsmart.py lines 42-46. -/

def EQ3BT_AWAY_TEMP : ℚ := 12.0

def EQ3BT_MIN_TEMP : ℚ := 5.0

def EQ3BT_MAX_TEMP : ℚ := 29.5

def EQ3BT_OFF_TEMP : ℚ := 4.5

def EQ3BT_ON_TEMP : ℚ := 30.0

/-! TimeAdapter, src/eq3bt/structures.py lines 17-30.  The Python
decoder returns either a datetime.time value or the bare integer
placeholder HOUR_24_PLACEHOLDER = 1234; we model the two shapes as a
sum type. -/

/-- Decoded schedule time: either a wall-clock time of day or the
HOUR_24_PLACEHOLDER sentinel standing for the raw 24:00 value. -/
inductive ScheduleTime where
  | placeholder : ScheduleTime
  | clock (hour minute : ℕ) : ScheduleTime
deriving DecidableEq, Repr

/-- TimeAdapter decode: h, m = divmod(raw * 10, 60); raw 24:00 maps to
the placeholder sentinel. -/
def decodeScheduleTime (raw : ℕ) : ScheduleTime :=
  if raw * 10 / 60 = 24 then .placeholder
  else .clock (raw * 10 / 60) (raw * 10 % 60)

/-- TimeAdapter encode: the placeholder maps back to int(24*60/10);
a clock time maps to int((hour*60+minute)/10). -/
def encodeScheduleTime : ScheduleTime → ℕ
  | .placeholder => 24 * 60 / 10
  | .clock h m => (h * 60 + m) / 10

/-! TempOffsetAdapter, src/eq3bt/structures.py lines 55-64. -/

/-- TempOffsetAdapter decode: float((obj - 7) / 2.0). -/
def decodeOffset (b : ℤ) : ℚ := ((b : ℚ) - 7) / 2

/-- TempOffsetAdapter encode: int(obj * 2.0) + 7 inside [-3.5, 3.5],
otherwise a raised ValueError. -/
def encodeOffset (o : ℚ) : Except String ℤ :=
  if -3.5 ≤ o ∧ o ≤ 3.5 then .ok (pyInt (o * 2) + 7)
  else .error "Temperature offset must be between -3.5 and 3.5 in intervals of 0.5."

/-! AwayDataAdapter, src/eq3bt/structures.py lines 79-99.  The Python
datetime is modelled by its five fields used by the adapter (seconds
are never produced nor consumed). -/

/-- Timestamp shape handled by AwayDataAdapter. -/
structure EqDateTime where
  year : ℕ
  month : ℕ
  day : ℕ
  hour : ℕ
  minute : ℕ
deriving DecidableEq, Repr

/-- AwayDataAdapter encode: rejects years outside [2000, 2099], else
produces the 4-tuple (day, year-2000, hour*2 with bit0 set for any
nonzero minute, month). -/
def awayEncode (d : EqDateTime) : Except String (ℕ × ℕ × ℕ × ℕ) :=
  if d.year < 2000 ∨ 2099 < d.year then
    .error "Invalid year, possible [2000,2099]"
  else
    .ok (d.day, d.year - 2000,
         if d.minute ≠ 0 then d.hour * 2 ||| 1 else d.hour * 2, d.month)

/-- AwayDataAdapter decode of the 4 parsed bytes (day, year, hour_min,
month): year + 2000, hour = hour_min div 2, minute = 30 iff bit0 of
hour_min is set. -/
def awayDecode (b : ℕ × ℕ × ℕ × ℕ) : EqDateTime :=
  { year := b.2.1 + 2000
    month := b.2.2.2
    day := b.1
    hour := b.2.2.1 / 2
    minute := if b.2.2.1 &&& 1 ≠ 0 then 30 else 0 }

/-- Byte[4] build of the encoded away tuple, in tuple order. -/
def awayBuild (d : EqDateTime) : Except String (List ℕ) :=
  (awayEncode d).map fun b => [b.1, b.2.1, b.2.2.1, b.2.2.2]

/-! ModeFlags, src/eq3bt/structures.py lines 67-76, and the Status
record of lines 109-126 at the level of parsed fields. -/

/-- Named bits of the status mode byte. -/
structure ModeFlags where
  MANUAL : Bool
  AWAY : Bool
  BOOST : Bool
  DST : Bool
  WINDOW : Bool
  LOCKED : Bool
  UNKNOWN : Bool
  LOW_BATTERY : Bool
deriving DecidableEq, Repr

/-- FlagsEnum view of a raw mode byte. -/
def ModeFlags.ofByte (b : ℕ) : ModeFlags :=
  { MANUAL := b &&& 0x01 != 0
    AWAY := b &&& 0x02 != 0
    BOOST := b &&& 0x04 != 0
    DST := b &&& 0x08 != 0
    WINDOW := b &&& 0x10 != 0
    LOCKED := b &&& 0x20 != 0
    UNKNOWN := b &&& 0x40 != 0
    LOW_BATTERY := b &&& 0x80 != 0 }

/-- Optional presets block of a parsed Status record, with the values
the construct adapters deliver (window open time in minutes). -/
structure PresetsRecord where
  window_open_temp : ℚ
  window_open_time : ℚ
  comfort_temp : ℚ
  eco_temp : ℚ
  offset : ℚ
deriving DecidableEq, Repr

/-- Parsed Status record.  target_temp_raw is the wire byte; the away
field is the datetime parsed when the AWAY flag is set (construct
parses it to None or ignored bytes otherwise). -/
structure StatusRecord where
  mode : ModeFlags
  valve : ℕ
  target_temp_raw : ℕ
  away : Option EqDateTime
  presets : Option PresetsRecord
deriving DecidableEq, Repr

/-- TempAdapter decode of the target temperature byte. -/
def StatusRecord.target_temp (s : StatusRecord) : ℚ := (s.target_temp_raw : ℚ) / 2

/-- Thermostat operation modes, src/eq3bt/eq3btsmart.py lines 49-57. -/
inductive Mode where
  | Unknown
  | Closed
  | Open
  | Auto
  | Manual
  | Away
  | Boost
deriving DecidableEq, Repr

/-- Mutable mirror held by the Thermostat object (the attributes set in
Thermostat.__init__ that status handling touches). -/
structure ThermostatState where
  target_temperature : ℚ
  mode : Mode
  valve_state : ℤ
  raw_mode : Option ModeFlags
  away_end : Option EqDateTime
  window_open_temperature : Option ℚ
  window_open_time : Option ℚ
  comfort_temperature : Option ℚ
  eco_temperature : Option ℚ
  temperature_offset : Option ℚ
deriving DecidableEq, Repr

/-- State after Thermostat.__init__ (lines 74-98): the Python code
stores the IntEnum member Mode.Unknown, whose integer value is -1, in
the target temperature and valve slots; every optional slot is None. -/
def initState : ThermostatState :=
  { target_temperature := -1
    mode := .Unknown
    valve_state := -1
    raw_mode := none
    away_end := none
    window_open_temperature := none
    window_open_time := none
    comfort_temperature := none
    eco_temperature := none
    temperature_offset := none }

/-- Status branch of Thermostat.handle_notification, lines 134-165:
store raw flags, valve and target temperature, derive the mode with
Boost > Away > Manual (with the two sentinel sub-cases) > Auto
precedence, store the away end in the Away branch, and overwrite or
clear the five preset slots depending on presence of the presets
block. -/
def applyStatus (st : ThermostatState) (s : StatusRecord) : ThermostatState :=
  let st1 := { st with raw_mode := some s.mode
                       valve_state := (s.valve : ℤ)
                       target_temperature := s.target_temp }
  let st2 :=
    if s.mode.BOOST then { st1 with mode := .Boost }
    else if s.mode.AWAY then { st1 with mode := .Away, away_end := s.away }
    else if s.mode.MANUAL then
      if s.target_temp = EQ3BT_OFF_TEMP then { st1 with mode := .Closed }
      else if s.target_temp = EQ3BT_ON_TEMP then { st1 with mode := .Open }
      else { st1 with mode := .Manual }
    else { st1 with mode := .Auto }
  match s.presets with
  | some p =>
      { st2 with window_open_temperature := some p.window_open_temp
                 window_open_time := some p.window_open_time
                 comfort_temperature := some p.comfort_temp
                 eco_temperature := some p.eco_temp
                 temperature_offset := some p.offset }
  | none =>
      { st2 with window_open_temperature := none
                 window_open_time := none
                 comfort_temperature := none
                 eco_temperature := none
                 temperature_offset := none }

/-- Accessor Thermostat.locked (lines 378-381): Python evaluates
raw_mode and raw_mode.LOCKED, yielding None before any status arrived
and the LOCKED flag afterwards. -/
def ThermostatState.locked (st : ThermostatState) : Option Bool :=
  st.raw_mode.map fun m => m.LOCKED

/-- Accessor Thermostat.low_battery (lines 390-393), same None-or-flag
shape. -/
def ThermostatState.low_battery (st : ThermostatState) : Option Bool :=
  st.raw_mode.map fun m => m.LOW_BATTERY

/-- Accessor Thermostat.window_open (lines 350-354), same None-or-flag
shape. -/
def ThermostatState.window_open (st : ThermostatState) : Option Bool :=
  st.raw_mode.map fun m => m.WINDOW

/-! Command builders.  Each returns the ordered list of payloads passed
to make_request together with the error raised, if any (writes already
performed before the raise are kept, matching Python execution order). -/

/-- struct.pack of two unsigned bytes; struct raises when an argument
leaves [0, 255]. -/
def structPackBB (a b : ℤ) : Except String (List ℕ) :=
  if 0 ≤ a ∧ a ≤ 255 ∧ 0 ≤ b ∧ b ≤ 255 then .ok [a.toNat, b.toNat]
  else .error "struct.error: ubyte format requires 0 <= number <= 255"

/-- Thermostat.query_schedule, lines 207-215: an out-of-range day is
only logged at error level, the code then packs and writes [0x20, day]
regardless (struct.pack itself raises only outside [0, 255]). -/
def query_schedule (day : ℤ) : List (List ℕ) × Option String :=
  match structPackBB 0x20 day with
  | .ok v => ([v], none)
  | .error e => ([], some e)

/-- Thermostat.target_temperature setter, lines 234-245: sentinel
temperatures become a mode write with bit 0x40 set, other temperatures
are range-checked by _verify_temperature (lines 110-116) and become a
temperature write. -/
def setTargetTemperature (temperature : ℚ) : List (List ℕ) × Option String :=
  if temperature = EQ3BT_OFF_TEMP ∨ temperature = EQ3BT_ON_TEMP then
    ([[0x40, 0x40 ||| pyNat (temperature * 2)]], none)
  else if temperature < EQ3BT_MIN_TEMP ∨ EQ3BT_MAX_TEMP < temperature then
    ([], some "Temperature out of range")
  else
    ([[0x41, pyNat (temperature * 2)]], none)

/-- Thermostat.boost setter payload, lines 338-343. -/
def boostPayload (b : Bool) : List ℕ := [0x45, if b then 1 else 0]

/-- Thermostat.set_mode, lines 295-299: [0x40, mode byte] plus the
optional extra payload. -/
def setModeValue (modeByte : ℕ) (payload : List ℕ) : List ℕ :=
  [0x40, modeByte] ++ payload

/-- Thermostat.set_away, lines 282-293: without an end timestamp a
plain auto mode write; with one, a single mode write carrying the
4 encoded away bytes (an away-encode failure raises before any
write). -/
def set_away (awayEnd : Option EqDateTime) (temperature : ℚ) :
    List (List ℕ) × Option String :=
  match awayEnd with
  | none => ([setModeValue 0x00 []], none)
  | some e =>
      match awayBuild e with
      | .error msg => ([], some msg)
      | .ok packed =>
          ([setModeValue (0x80 ||| pyNat (temperature * 2)) packed], none)

/-- Thermostat.mode setter, lines 252-276.  curMode is the cached
self.mode, targetTemp the cached self.target_temperature; awayEnd
stands for datetime.now() + self.away_duration, which the Away branch
computes (real time is abstracted as a parameter). -/
def setOperationMode (curMode : Mode) (targetTemp : ℚ) (awayEnd : EqDateTime)
    (m : Mode) : List (List ℕ) × Option String :=
  let pre : List (List ℕ) :=
    if curMode = Mode.Boost ∧ m ≠ Mode.Boost then [boostPayload false] else []
  if m = Mode.Boost then (pre ++ [boostPayload true], none)
  else if m = Mode.Away then
    let r := set_away (some awayEnd) EQ3BT_AWAY_TEMP
    (pre ++ r.1, r.2)
  else if m = Mode.Closed then
    (pre ++ [setModeValue (0x40 ||| pyNat (EQ3BT_OFF_TEMP * 2)) []], none)
  else if m = Mode.Open then
    (pre ++ [setModeValue (0x40 ||| pyNat (EQ3BT_ON_TEMP * 2)) []], none)
  else if m = Mode.Manual then
    (pre ++ [setModeValue
      (0x40 ||| pyNat (max (min targetTemp EQ3BT_MAX_TEMP) EQ3BT_MIN_TEMP * 2)) []],
     none)
  else (pre ++ [setModeValue 0x00 []], none)

/-- Thermostat.window_open_config, lines 356-366: the temperature is
checked by _verify_temperature; the duration guard is the literal
condition of the source, seconds < 0 and seconds > 3600 required
together, which no integer satisfies. -/
def window_open_config (temperature : ℚ) (durationSeconds : ℤ) :
    List (List ℕ) × Option String :=
  if temperature < EQ3BT_MIN_TEMP ∨ EQ3BT_MAX_TEMP < temperature then
    ([], some "Temperature out of range")
  else if durationSeconds < 0 ∧ 3600 < durationSeconds then
    ([], some "ValueError")
  else
    ([[0x14, pyNat (temperature * 2), pyNat ((durationSeconds : ℚ) / 300)]], none)

/-! Helper evaluation lemmas. -/

theorem pyNat_eval (q : ℚ) (n : ℕ) (h : q = (n : ℚ)) : pyNat q = n := by
  subst h
  simp [pyNat, pyInt, Int.tdiv_one]

theorem setModeValue_head (x : ℕ) (p : List ℕ) :
    (setModeValue x p).head? = some 0x40 := rfl

/-- C7: schedule-time raw value 144 decodes to the no-further-change
sentinel, not to a wrapped 00:00 clock time, and the sentinel
re-encodes to exactly 144, so decode followed by encode is the
identity at 144. -/
theorem scheduleTime_sentinel_roundtrip :
    decodeScheduleTime 144 = ScheduleTime.placeholder ∧
    decodeScheduleTime 144 ≠ ScheduleTime.clock 0 0 ∧
    encodeScheduleTime ScheduleTime.placeholder = 144 ∧
    encodeScheduleTime (decodeScheduleTime 144) = 144 := by
  decide

/-- C1: the mode derived by applying a status record follows the fixed
precedence Boost over Away over Manual (with the Closed and Open
sentinel sub-cases on the target temperature) over Auto. -/
theorem applyStatus_mode_precedence (st : ThermostatState) (s : StatusRecord) :
    (applyStatus st s).mode =
      (if s.mode.BOOST then Mode.Boost
       else if s.mode.AWAY then Mode.Away
       else if s.mode.MANUAL then
         if s.target_temp = EQ3BT_OFF_TEMP then Mode.Closed
         else if s.target_temp = EQ3BT_ON_TEMP then Mode.Open
         else Mode.Manual
       else Mode.Auto) := by
  rcases s with ⟨mo, v, tt, aw, pr⟩
  cases pr <;> simp only [applyStatus] <;> split_ifs <;> rfl

/-- C10: the locked, low_battery and window_open accessors return the
None value on the freshly constructed state, and only after a status
record is applied do they return the boolean stored flags. -/
theorem accessors_unknown_before_status :
    (initState.locked = none ∧ initState.low_battery = none ∧
     initState.window_open = none) ∧
    ∀ (st : ThermostatState) (s : StatusRecord),
      (applyStatus st s).locked = some s.mode.LOCKED ∧
      (applyStatus st s).low_battery = some s.mode.LOW_BATTERY ∧
      (applyStatus st s).window_open = some s.mode.WINDOW := by
  refine ⟨⟨rfl, rfl, rfl⟩, ?_⟩
  intro st s
  rcases s with ⟨mo, v, tt, aw, pr⟩
  cases pr <;>
    simp only [applyStatus, ThermostatState.locked, ThermostatState.low_battery,
      ThermostatState.window_open] <;>
    split_ifs <;> exact ⟨rfl, rfl, rfl⟩

/-! Concrete records used by the status-effect claims. -/

/-- Mode byte 0x00 as parsed flags. -/
def sampleFlags : ModeFlags := ModeFlags.ofByte 0x00

/-- Status record with no presets block (a short status frame, e.g.
02 01 00 00 04 28). -/
def sampleStatusBare : StatusRecord :=
  { mode := sampleFlags, valve := 0, target_temp_raw := 40,
    away := none, presets := none }

/-- Presets block of the repository test frame
02 01 00 00 04 22 00000000 18 03 28 22 07. -/
def samplePresets : PresetsRecord :=
  { window_open_temp := 12, window_open_time := 15,
    comfort_temp := 20, eco_temp := 17, offset := 0 }

/-- Status record carrying the presets block above. -/
def sampleStatusPresets : StatusRecord :=
  { sampleStatusBare with presets := some samplePresets }

/-- State that already knows all five preset values. -/
def presetKnownState : ThermostatState :=
  { initState with window_open_temperature := some 12,
                   window_open_time := some 15,
                   comfort_temperature := some 20,
                   eco_temperature := some 17,
                   temperature_offset := some 0 }

/-- C2 counterexample: applying a status without a presets block to a
state that knew a comfort temperature does not leave that field
unchanged, refuting the claim as stated at this concrete input. -/
theorem applyStatus_missing_presets_clears :
    (applyStatus presetKnownState sampleStatusBare).comfort_temperature ≠
      presetKnownState.comfort_temperature := by
  decide

/-- C2 amended: when the presets sub-record is absent the five
preset/offset fields are reset to None, discarding any previously
known values; when it is present all five are overwritten with the
decoded values. -/
theorem applyStatus_presets_effect (st : ThermostatState) (s : StatusRecord) :
    (s.presets = none →
      (applyStatus st s).window_open_temperature = none ∧
      (applyStatus st s).window_open_time = none ∧
      (applyStatus st s).comfort_temperature = none ∧
      (applyStatus st s).eco_temperature = none ∧
      (applyStatus st s).temperature_offset = none) ∧
    (∀ p, s.presets = some p →
      (applyStatus st s).window_open_temperature = some p.window_open_temp ∧
      (applyStatus st s).window_open_time = some p.window_open_time ∧
      (applyStatus st s).comfort_temperature = some p.comfort_temp ∧
      (applyStatus st s).eco_temperature = some p.eco_temp ∧
      (applyStatus st s).temperature_offset = some p.offset) := by
  rcases s with ⟨mo, v, tt, aw, pr⟩
  constructor
  · intro h
    simp only at h
    subst h
    simp [applyStatus]
  · intro p h
    simp only at h
    subst h
    simp [applyStatus]

/-- C2 amended witness at concrete records: a bare status leaves the
fields cleared and a presets status overwrites them. -/
theorem applyStatus_presets_effect_witness :
    sampleStatusBare.presets = none ∧
    (applyStatus initState sampleStatusBare).comfort_temperature = none ∧
    (applyStatus initState sampleStatusPresets).comfort_temperature =
      some samplePresets.comfort_temp :=
  ⟨rfl,
   ((applyStatus_presets_effect initState sampleStatusBare).1 rfl).2.2.1,
   ((applyStatus_presets_effect initState sampleStatusPresets).2
      samplePresets rfl).2.2.1⟩

/-- C3: evaluation of query_schedule on the out-of-range day 7 shows
the invalid day is not surfaced as an error and the payload is still
written, while an in-range day writes the documented payload. -/
theorem query_schedule_invalid_day_still_writes :
    query_schedule 7 = ([[0x20, 7]], none) ∧
    query_schedule 3 = ([[0x20, 3]], none) := by
  decide

/-- C5: a target temperature strictly inside [5.0, 29.5] is written as
the single temperature payload [0x41, int(t*2)]; exactly 4.5 or 30.0
instead produce the mode write [0x40, 0x40 or-ed with int(t*2)]; any
other value outside [5.0, 29.5] raises the range error before any byte
is sent. -/
theorem setTargetTemperature_cases (t : ℚ) :
    (EQ3BT_MIN_TEMP < t → t < EQ3BT_MAX_TEMP →
      setTargetTemperature t = ([[0x41, pyNat (t * 2)]], none)) ∧
    (t = EQ3BT_OFF_TEMP ∨ t = EQ3BT_ON_TEMP →
      setTargetTemperature t = ([[0x40, 0x40 ||| pyNat (t * 2)]], none)) ∧
    ((t < EQ3BT_MIN_TEMP ∨ EQ3BT_MAX_TEMP < t) →
      t ≠ EQ3BT_OFF_TEMP → t ≠ EQ3BT_ON_TEMP →
      setTargetTemperature t = ([], some "Temperature out of range")) := by
  have hoff : EQ3BT_OFF_TEMP < EQ3BT_MIN_TEMP := by
    norm_num [EQ3BT_OFF_TEMP, EQ3BT_MIN_TEMP]
  have hon : EQ3BT_MAX_TEMP < EQ3BT_ON_TEMP := by
    norm_num [EQ3BT_MAX_TEMP, EQ3BT_ON_TEMP]
  refine ⟨fun h5 h29 => ?_, fun h => ?_, fun h h4 h30 => ?_⟩
  · unfold setTargetTemperature
    rw [if_neg, if_neg]
    · rintro (h | h) <;> linarith
    · rintro (h | h) <;> subst h <;> linarith
  · unfold setTargetTemperature
    rw [if_pos h]
  · unfold setTargetTemperature
    rw [if_neg, if_pos h]
    rintro (hc | hc)
    · exact h4 hc
    · exact h30 hc

/-- C5 witness: concrete instances of the three cases at 20.0, 4.5 and
31.0 degrees. -/
theorem setTargetTemperature_cases_witness :
    setTargetTemperature 20 = ([[0x41, 40]], none) ∧
    setTargetTemperature 4.5 = ([[0x40, 73]], none) ∧
    setTargetTemperature 31 = ([], some "Temperature out of range") := by
  have h1 := (setTargetTemperature_cases 20).1
    (by norm_num [EQ3BT_MIN_TEMP]) (by norm_num [EQ3BT_MAX_TEMP])
  have h2 := (setTargetTemperature_cases 4.5).2.1
    (Or.inl (by norm_num [EQ3BT_OFF_TEMP]))
  have h3 := (setTargetTemperature_cases 31).2.2
    (Or.inr (by norm_num [EQ3BT_MAX_TEMP]))
    (by norm_num [EQ3BT_OFF_TEMP]) (by norm_num [EQ3BT_ON_TEMP])
  rw [pyNat_eval ((20 : ℚ) * 2) 40 (by norm_num)] at h1
  rw [pyNat_eval ((4.5 : ℚ) * 2) 9 (by norm_num)] at h2
  exact ⟨h1, h2, h3⟩

/-- C6: every offset of the form k/2 inside [-3.5, 3.5] encodes to the
biased byte k+7 and decodes back to itself exactly; every offset
outside the range is rejected with an error and no byte output. -/
theorem offset_codec_roundtrip (o : ℚ) :
    (∀ k : ℤ, o = (k : ℚ) / 2 → -3.5 ≤ o → o ≤ 3.5 →
      encodeOffset o = .ok (k + 7) ∧ decodeOffset (k + 7) = o) ∧
    ((o < -3.5 ∨ 3.5 < o) →
      encodeOffset o =
        .error "Temperature offset must be between -3.5 and 3.5 in intervals of 0.5.") := by
  constructor
  · intro k hk h1 h2
    have hmul : o * 2 = (k : ℚ) := by rw [hk]; ring
    constructor
    · unfold encodeOffset
      rw [if_pos ⟨h1, h2⟩, hmul, pyInt_intCast]
    · unfold decodeOffset
      rw [hk]
      push_cast
      ring
  · intro h
    unfold encodeOffset
    rw [if_neg]
    rintro ⟨ha, hb⟩
    rcases h with h | h <;> linarith

/-- C6 witness: the boundary offset -3.5 encodes to byte 0 and decodes
back, and the out-of-range offset 4 is rejected. -/
theorem offset_codec_roundtrip_witness :
    encodeOffset (-3.5) = .ok 0 ∧ decodeOffset 0 = -3.5 ∧
    encodeOffset 4 =
      .error "Temperature offset must be between -3.5 and 3.5 in intervals of 0.5." := by
  have h := (offset_codec_roundtrip (-3.5)).1 (-7)
    (by norm_num) (by norm_num) (by norm_num)
  have h2 := (offset_codec_roundtrip 4).2 (Or.inr (by norm_num))
  have e1 := h.1
  have e2 := h.2
  rw [show (-7 + 7 : ℤ) = 0 by decide] at e1 e2
  exact ⟨e1, e2, h2⟩

/-- C8: evaluation of window_open_config at the out-of-range duration
of 3900 seconds (65 minutes) shows the guard of the source never
fires: the payload is written and no error is raised, contradicting
the claim that durations outside [0, 3600] are rejected. -/
theorem window_open_config_guard_never_fires :
    window_open_config 20 3900 = ([[0x14, 40, 13]], none) := by
  unfold window_open_config
  rw [if_neg, if_neg]
  · rw [pyNat_eval ((20 : ℚ) * 2) 40 (by norm_num),
      pyNat_eval (((3900 : ℤ) : ℚ) / 300) 13 (by norm_num)]
  · rintro ⟨ha, hb⟩
    omega
  · rintro (h | h) <;> norm_num [EQ3BT_MIN_TEMP, EQ3BT_MAX_TEMP] at h

/-- Bit facts for the packed hour byte of the away encoding, checked
over the 24 datetime hours. -/
theorem awayHourBits : ∀ h : ℕ, h < 24 →
    (h * 2 ||| 1) / 2 = h ∧ (h * 2 ||| 1) &&& 1 = 1 ∧
    (h * 2) / 2 = h ∧ (h * 2) &&& 1 = 0 := by
  decide

/-- C9: an away period with minute 0 or 30 survives the 4-byte encode
and decode exactly; any minute strictly between 0 and 60 encodes to
the same bytes as minute 30, so decoding the encoding yields
minute 30. -/
theorem away_codec_roundtrip (d : EqDateTime)
    (hy1 : 2000 ≤ d.year) (hy2 : d.year ≤ 2099) (hh : d.hour ≤ 23) :
    ((d.minute = 0 ∨ d.minute = 30) →
      ∃ b, awayEncode d = .ok b ∧ awayDecode b = d) ∧
    (0 < d.minute → d.minute < 60 →
      awayEncode d = awayEncode { d with minute := 30 } ∧
      ∃ b, awayEncode d = .ok b ∧ (awayDecode b).minute = 30) := by
  obtain ⟨y, mon, day, h, mi⟩ := d
  simp only at hy1 hy2 hh
  have hyear : ¬ (y < 2000 ∨ 2099 < y) := by omega
  have hbits := awayHourBits h (by omega)
  constructor
  · rintro (rfl | rfl)
    · refine ⟨(day, y - 2000, h * 2, mon), ?_, ?_⟩
      · rw [awayEncode, if_neg hyear]
        simp
      · simp [awayDecode, hbits.2.2.1, hbits.2.2.2]
        omega
    · refine ⟨(day, y - 2000, h * 2 ||| 1, mon), ?_, ?_⟩
      · rw [awayEncode, if_neg hyear]
        simp
      · simp [awayDecode, hbits.1, hbits.2.1]
        omega
  · intro hpos hlt
    simp only at hpos hlt
    have hne : mi ≠ 0 := by omega
    constructor
    · rw [awayEncode, awayEncode]
      simp only [if_neg hyear]
      simp [hne]
    · refine ⟨(day, y - 2000, h * 2 ||| 1, mon), ?_, ?_⟩
      · rw [awayEncode, if_neg hyear]
        simp [hne]
      · simp only [awayDecode, hbits.2.1]
        simp

/-- C9 witness: the repository test timestamp 2019-03-29 23:00 round
trips, and 23:15 encodes identically to 23:30. -/
theorem away_codec_roundtrip_witness :
    (∃ b, awayEncode ⟨2019, 3, 29, 23, 0⟩ = .ok b ∧
          awayDecode b = ⟨2019, 3, 29, 23, 0⟩) ∧
    awayEncode ⟨2019, 3, 29, 23, 15⟩ = awayEncode ⟨2019, 3, 29, 23, 30⟩ := by
  constructor
  · exact (away_codec_roundtrip ⟨2019, 3, 29, 23, 0⟩
      (by decide) (by decide) (by decide)).1 (Or.inl rfl)
  · exact ((away_codec_roundtrip ⟨2019, 3, 29, 23, 15⟩
      (by decide) (by decide) (by decide)).2 (by decide) (by decide)).1

/-- C4: setting any non-Boost mode while the current mode is Boost
emits exactly two payloads in order, the boost-off command [0x45, 0]
followed by the single mode write (first byte 0x40) for the target
mode; setting Boost emits only the boost-on command [0x45, 1]. -/
theorem setOperationMode_boost_protocol (cur m : Mode) (t : ℚ) (e : EqDateTime)
    (hy1 : 2000 ≤ e.year) (hy2 : e.year ≤ 2099) :
    (cur = Mode.Boost → m ≠ Mode.Boost →
      ∃ w, setOperationMode cur t e m = ([boostPayload false, w], none) ∧
           w.head? = some 0x40) ∧
    setOperationMode cur t e Mode.Boost = ([boostPayload true], none) := by
  have hyear : ¬ (e.year < 2000 ∨ 2099 < e.year) := by omega
  have he : awayEncode e = .ok (e.day, e.year - 2000,
      if e.minute ≠ 0 then e.hour * 2 ||| 1 else e.hour * 2, e.month) := by
    rw [awayEncode, if_neg hyear]
  constructor
  · rintro rfl hm
    cases m with
    | Boost => exact absurd rfl hm
    | Away =>
        refine ⟨setModeValue (0x80 ||| pyNat (EQ3BT_AWAY_TEMP * 2))
          [e.day, e.year - 2000,
           if e.minute ≠ 0 then e.hour * 2 ||| 1 else e.hour * 2, e.month],
          ?_, setModeValue_head _ _⟩
        simp [setOperationMode, set_away, awayBuild, he, Except.map]
    | Unknown =>
        exact ⟨setModeValue 0x00 [], by simp [setOperationMode], setModeValue_head _ _⟩
    | Closed =>
        exact ⟨setModeValue (0x40 ||| pyNat (EQ3BT_OFF_TEMP * 2)) [],
          by simp [setOperationMode], setModeValue_head _ _⟩
    | Open =>
        exact ⟨setModeValue (0x40 ||| pyNat (EQ3BT_ON_TEMP * 2)) [],
          by simp [setOperationMode], setModeValue_head _ _⟩
    | Manual =>
        exact ⟨setModeValue
          (0x40 ||| pyNat (max (min t EQ3BT_MAX_TEMP) EQ3BT_MIN_TEMP * 2)) [],
          by simp [setOperationMode], setModeValue_head _ _⟩
    | Auto =>
        exact ⟨setModeValue 0x00 [], by simp [setOperationMode], setModeValue_head _ _⟩
  · simp [setOperationMode]

/-- C4 witness: leaving Boost for Manual at 20 degrees emits boost-off
then one mode write, and entering Boost emits only boost-on. -/
theorem setOperationMode_boost_protocol_witness :
    (∃ w, setOperationMode Mode.Boost 20 ⟨2019, 3, 29, 23, 0⟩ Mode.Manual =
            ([boostPayload false, w], none) ∧ w.head? = some 0x40) ∧
    setOperationMode Mode.Boost 20 ⟨2019, 3, 29, 23, 0⟩ Mode.Boost =
      ([boostPayload true], none) := by
  have h := setOperationMode_boost_protocol Mode.Boost Mode.Manual 20
    ⟨2019, 3, 29, 23, 0⟩ (by decide) (by decide)
  exact ⟨h.1 rfl (by decide), h.2⟩
